import Mathlib

/-!
Shallow embedding of `src/rio/src/event/mod.rs` (the inter-actor event
notification layer of the rio terminal emulator).

Modelling decisions:
- A Rust mpsc-style channel (and likewise the winit event-loop injection
  queue) is modelled as a `Channel α`: a flag saying whether the receiving
  side is still alive, plus the list of messages enqueued so far.  `send`
  appends when the receiver is alive and fails (message dropped) when it
  has been dropped, matching the `Result`-returning sends the source calls.
- `Cow<'static, [u8]>` is modelled as `List Byte` (ownership is not
  semantically observable here), `u16` as `Fin 65536`, `f64` as `Float`.
- Methods taking `&self`/`&mut self` handles that wrap a channel sender are
  modelled as state transformers on the corresponding `Channel`.
- The closure payload `Arc<dyn Fn(WindowSize) -> String>` is modelled as a
  Lean function `WindowSize → String`.
-/

/-- A byte (`u8`). -/
abbrev Byte := Fin 256

/-- `WindowSize` (src lines 21-27): four `u16` fields. -/
structure WindowSize where
  num_lines : Fin 65536
  num_cols : Fin 65536
  cell_width : Fin 65536
  cell_height : Fin 65536
  deriving DecidableEq

/-- `Msg` (src lines 9-19): instructions for the PTY writer. -/
inductive Msg where
  | Input (bytes : List Byte)
  | Shutdown
  | Resize (size : WindowSize)
  deriving DecidableEq

/-- `RioEvent` (src lines 29-72): notifications raised toward the UI layer.
The commented-out clipboard/color variants of the source are omitted, as in
the source. -/
inductive RioEvent where
  | MouseCursorDirty
  | Title (title : String)
  | ResetTitle
  | PtyWrite (text : String)
  | TextAreaSizeRequest (formatter : WindowSize → String)
  | CursorBlinkingChange
  | Wakeup
  | Bell
  | Exit

/-- `RioEventType` (src lines 93-104). -/
inductive RioEventType where
  | ScaleFactorChanged (factor : Float) (physical : Nat × Nat)
  | Rio (event : RioEvent)
  | BlinkCursor
  | BlinkCursorTimeout
  | SearchNext
  | Frame

/-- `impl From<RioEvent> for RioEventType` (src lines 106-110). -/
def RioEventType.fromRioEvent (rio_event : RioEvent) : RioEventType :=
  RioEventType.Rio rio_event

/-- `EventP` (src lines 112-116): the envelope posted to the UI event loop. -/
structure EventP where
  payload : RioEventType

/-- `EventP::new` (src lines 118-122). -/
def EventP.new (payload : RioEventType) : EventP :=
  { payload := payload }

/-- The `Debug` implementation for `RioEvent` (src lines 74-91), as the
string it writes.  `write!(f, "Title({title})")` concatenates the literal
prefix, the payload and the literal suffix; the closure-carrying variant
writes its tag name only, ignoring the closure. -/
def RioEvent.debugFmt : RioEvent → String
  | RioEvent.TextAreaSizeRequest _ => "TextAreaSizeRequest"
  | RioEvent.PtyWrite text => "PtyWrite(" ++ text ++ ")"
  | RioEvent.Title title => "Title(" ++ title ++ ")"
  | RioEvent.CursorBlinkingChange => "CursorBlinkingChange"
  | RioEvent.MouseCursorDirty => "MouseCursorDirty"
  | RioEvent.ResetTitle => "ResetTitle"
  | RioEvent.Wakeup => "Wakeup"
  | RioEvent.Bell => "Bell"
  | RioEvent.Exit => "Exit"

/-- The Rust tag name of each `RioEvent` variant (from the enum
declaration, src lines 29-72). -/
def RioEvent.variantName : RioEvent → String
  | RioEvent.MouseCursorDirty => "MouseCursorDirty"
  | RioEvent.Title _ => "Title"
  | RioEvent.ResetTitle => "ResetTitle"
  | RioEvent.PtyWrite _ => "PtyWrite"
  | RioEvent.TextAreaSizeRequest _ => "TextAreaSizeRequest"
  | RioEvent.CursorBlinkingChange => "CursorBlinkingChange"
  | RioEvent.Wakeup => "Wakeup"
  | RioEvent.Bell => "Bell"
  | RioEvent.Exit => "Exit"

/-- Does a `RioEvent` variant carry a closure payload?  Only
`TextAreaSizeRequest` does (src line 59). -/
def RioEvent.hasClosurePayload : RioEvent → Bool
  | RioEvent.TextAreaSizeRequest _ => true
  | _ => false

/-- One unidirectional multi-producer channel (or the winit event-loop
injection queue), seen from a sender: whether the receiving side is still
alive, and the messages enqueued so far. -/
structure Channel (α : Type) where
  receiverAlive : Bool
  queue : List α

/-- A fallible channel send, as `std::sync::mpsc::Sender::send` /
`winit::EventLoopProxy::send_event` behave: appends the message when the
receiver is alive, returns an error (dropping the message) when the
receiver has been dropped. -/
def Channel.send {α : Type} (ch : Channel α) (m : α) : Except Unit (Channel α) :=
  if ch.receiverAlive then
    Except.ok { ch with queue := ch.queue ++ [m] }
  else
    Except.error ()

/-- `impl Notify for Notifier::notify` (src lines 150-163), as a state
transformer on the `Msg` channel the `Notifier` wraps.  The source
early-returns on a zero-length payload; the actual channel send
(`self.0.send(Msg::Input(bytes))`, src line 161) is commented out in the
source, so no message is ever enqueued. -/
def Notifier.notify (ch : Channel Msg) (bytes : List Byte) : Channel Msg :=
  if bytes.length = 0 then
    ch
  else
    ch

/-- `impl OnResize for Notifier::on_resize` (src lines 165-169).  The body
(`self.0.send(Msg::Resize(window_size))`, src line 167) is commented out in
the source, so the method does nothing. -/
def Notifier.on_resize (ch : Channel Msg) (_window_size : WindowSize) : Channel Msg :=
  ch

/-- The inherent `EventProxy::send_event` (src lines 186-188):
`let _ = self.proxy.send_event(EventP::new(event));` — the send result is
discarded, so a failed send leaves the queue unchanged. -/
def EventProxy.send_event (ch : Channel EventP) (event : RioEventType) : Channel EventP :=
  match ch.send (EventP.new event) with
  | Except.ok ch2 => ch2
  | Except.error _ => ch

/-- `impl EventListener for EventProxy::send_event` (src lines 191-195):
`let _ = self.proxy.send_event(EventP::new(event.into()));`. -/
def EventProxy.send_event_listener (ch : Channel EventP) (event : RioEvent) : Channel EventP :=
  match ch.send (EventP.new (RioEventType.fromRioEvent event)) with
  | Except.ok ch2 => ch2
  | Except.error _ => ch

/-! Helper lemma about the string shapes of the `Debug` implementation. -/

theorem append_paren_assoc (pre mid post : String) :
    (pre ++ "(") ++ mid ++ post = pre ++ ("(" ++ mid ++ post) := by
  rw [String.append_assoc, String.append_assoc, String.append_assoc]

/-- Claim C1: evaluating `Notifier::notify` at the failing input
`b = "ls\n"` (bytes `[108, 115, 10]`, non-empty) on a channel whose
receiver is alive: no `Msg::Input` is enqueued, the channel is unchanged,
because the channel send on src line 161 is commented out. -/
theorem C1_notify_enqueues_nothing :
    Notifier.notify { receiverAlive := true, queue := [] }
        [(108 : Byte), (115 : Byte), (10 : Byte)]
      = { receiverAlive := true, queue := [] } := rfl

/-- Claim C2: evaluating `Notifier::on_resize` at the failing input
`g = (25 rows, 80 cols, 8x16 cells)` on a channel whose receiver is alive:
no `Msg::Resize` is enqueued, the channel is unchanged, because the channel
send on src line 167 is commented out. -/
theorem C2_on_resize_enqueues_nothing :
    Notifier.on_resize { receiverAlive := true, queue := [] }
        { num_lines := 25, num_cols := 80, cell_width := 8, cell_height := 16 }
      = { receiverAlive := true, queue := [] } := rfl

/-- Claim C3: for every `RioEvent` `e`, the `EventListener` method
`EventProxy::send_event` enqueues exactly one envelope on the UI event
loop queue (when the loop is alive), and its payload is
`RioEventType::Rio(e)`. -/
theorem C3_send_enqueues_one_rio_envelope (ch : Channel EventP) (e : RioEvent)
    (h : ch.receiverAlive = true) :
    (EventProxy.send_event_listener ch e).queue
      = ch.queue ++ [EventP.new (RioEventType.Rio e)] := by
  simp [EventProxy.send_event_listener, Channel.send, RioEventType.fromRioEvent, h]

theorem C3_witness :
    (EventProxy.send_event_listener { receiverAlive := true, queue := [] }
        RioEvent.Bell).queue
      = [EventP.new (RioEventType.Rio RioEvent.Bell)] :=
  C3_send_enqueues_one_rio_envelope { receiverAlive := true, queue := [] }
    RioEvent.Bell rfl

/-- Claim C4: for every zero-length byte sequence, `Notifier::notify`
returns normally and leaves the channel completely unchanged (the request
is silently discarded by the early return on src lines 157-159). -/
theorem C4_notify_empty_is_noop (ch : Channel Msg) (bytes : List Byte)
    (h : bytes.length = 0) :
    Notifier.notify ch bytes = ch := by
  simp [Notifier.notify, h]

theorem C4_witness :
    Notifier.notify { receiverAlive := true, queue := [] } []
      = { receiverAlive := true, queue := [] } :=
  C4_notify_empty_is_noop { receiverAlive := true, queue := [] } [] rfl

/-- Claim C5: after the corresponding receiver has been dropped, each of
`notify`, `on_resize`, and the two `send_event` paths returns normally
with no observable error: the channel state is simply returned unchanged
(the `let _ =` in the source discards any send error, and `notify`/
`on_resize` perform no send at all). -/
theorem C5_total_after_receiver_dropped (bytes : List Byte) (g : WindowSize)
    (e : RioEvent) (ch1 : Channel Msg) (ch2 : Channel EventP)
    (h2 : ch2.receiverAlive = false) :
    Notifier.notify ch1 bytes = ch1 ∧
    Notifier.on_resize ch1 g = ch1 ∧
    EventProxy.send_event_listener ch2 e = ch2 ∧
    EventProxy.send_event ch2 (RioEventType.Rio e) = ch2 := by
  refine ⟨?_, rfl, ?_, ?_⟩
  · simp [Notifier.notify]
  · simp [EventProxy.send_event_listener, Channel.send, h2]
  · simp [EventProxy.send_event, Channel.send, h2]

theorem C5_witness :
    Notifier.notify { receiverAlive := false, queue := [] } [(13 : Byte)]
        = { receiverAlive := false, queue := [] } ∧
    Notifier.on_resize { receiverAlive := false, queue := [] }
        { num_lines := 25, num_cols := 80, cell_width := 8, cell_height := 16 }
        = { receiverAlive := false, queue := [] } ∧
    EventProxy.send_event_listener { receiverAlive := false, queue := [] }
        RioEvent.Wakeup = { receiverAlive := false, queue := [] } ∧
    EventProxy.send_event { receiverAlive := false, queue := [] }
        (RioEventType.Rio RioEvent.Wakeup)
        = { receiverAlive := false, queue := [] } :=
  C5_total_after_receiver_dropped [(13 : Byte)]
    { num_lines := 25, num_cols := 80, cell_width := 8, cell_height := 16 }
    RioEvent.Wakeup { receiverAlive := false, queue := [] }
    { receiverAlive := false, queue := [] } rfl

/-- Claim C6: the `Debug` rendering of every `RioEvent` starts with the
variant's tag name (so the tag name appears in the output), and the
closure-carrying variant `TextAreaSizeRequest` renders exactly its tag
name for every closure, never invoking it (the output does not depend on
the closure).  Determinism is intrinsic: `RioEvent.debugFmt` is a pure
function. -/
theorem C6_debug_tag_name_and_closure :
    (∀ e : RioEvent, ∃ t : String, e.debugFmt = e.variantName ++ t) ∧
    (∀ f : WindowSize → String,
      (RioEvent.TextAreaSizeRequest f).debugFmt = "TextAreaSizeRequest") := by
  constructor
  · intro e
    cases e with
    | Title title => exact ⟨"(" ++ title ++ ")", append_paren_assoc "Title" title ")"⟩
    | PtyWrite text => exact ⟨"(" ++ text ++ ")", append_paren_assoc "PtyWrite" text ")"⟩
    | MouseCursorDirty => exact ⟨"", rfl⟩
    | ResetTitle => exact ⟨"", rfl⟩
    | TextAreaSizeRequest f => exact ⟨"", rfl⟩
    | CursorBlinkingChange => exact ⟨"", rfl⟩
    | Wakeup => exact ⟨"", rfl⟩
    | Bell => exact ⟨"", rfl⟩
    | Exit => exact ⟨"", rfl⟩
  · intro f
    rfl

/-- Claim C7: the `From<RioEvent> for RioEventType` conversion is total
(it is a Lean function, defined on every variant), always yields
`RioEventType::Rio(e)`, and is injective, so `e` is recoverable from the
result. -/
theorem C7_from_is_total_injective_embedding :
    (∀ e : RioEvent, RioEventType.fromRioEvent e = RioEventType.Rio e) ∧
    (∀ e1 e2 : RioEvent,
      RioEventType.fromRioEvent e1 = RioEventType.fromRioEvent e2 → e1 = e2) := by
  refine ⟨fun e => rfl, fun e1 e2 h => ?_⟩
  simpa [RioEventType.fromRioEvent] using h

theorem C7_witness : RioEvent.Bell = RioEvent.Bell :=
  C7_from_is_total_injective_embedding.2 RioEvent.Bell RioEvent.Bell rfl

/-- Claim C8: two sequential sends from the same producer appear in the
queue in call order (per-sender FIFO), and nothing is deduplicated: both
envelopes are present even when the events are equal. -/
theorem C8_per_sender_fifo_no_dedup (ch : Channel EventP) (e1 e2 : RioEvent)
    (h : ch.receiverAlive = true) :
    (EventProxy.send_event_listener
        (EventProxy.send_event_listener ch e1) e2).queue
      = ch.queue
          ++ [EventP.new (RioEventType.Rio e1), EventP.new (RioEventType.Rio e2)] := by
  simp [EventProxy.send_event_listener, Channel.send, RioEventType.fromRioEvent, h]

theorem C8_witness :
    (EventProxy.send_event_listener
        (EventProxy.send_event_listener { receiverAlive := true, queue := [] }
          RioEvent.Wakeup) RioEvent.Wakeup).queue
      = [EventP.new (RioEventType.Rio RioEvent.Wakeup),
         EventP.new (RioEventType.Rio RioEvent.Wakeup)] :=
  C8_per_sender_fifo_no_dedup { receiverAlive := true, queue := [] }
    RioEvent.Wakeup RioEvent.Wakeup rfl

/-- Claim C9: the `EventListener` trait method `send_event(e)` injects
exactly the same envelope as the inherent `send_event` called with the
already-converted `RioEventType::Rio(e)`: the two paths are equal as state
transformers on the event-loop queue. -/
theorem C9_listener_path_equals_inherent_path (ch : Channel EventP) (e : RioEvent) :
    EventProxy.send_event_listener ch e
      = EventProxy.send_event ch (RioEventType.Rio e) := rfl

/-- Claim C10: every `WindowSize` has all four fields in the `u16` range
`[0, 65535]` (the lower bound is intrinsic to the natural-number carrier),
so no out-of-range value is representable in a `Msg::Resize` or a
formatter-callback argument. -/
theorem C10_window_size_fields_u16 (g : WindowSize) :
    g.num_lines.val ≤ 65535 ∧ g.num_cols.val ≤ 65535 ∧
    g.cell_width.val ≤ 65535 ∧ g.cell_height.val ≤ 65535 := by
  have h1 := g.num_lines.isLt
  have h2 := g.num_cols.isLt
  have h3 := g.cell_width.isLt
  have h4 := g.cell_height.isLt
  exact ⟨by omega, by omega, by omega, by omega⟩
